import Mathlib

/-!
Verification of the WebSocket speed-test protocol implementation.

Shallow embedding of the repository's JavaScript sources:
* `Server`  — `websocket-server.js` (the size-tracking upload variant, download
  chunker, connection/auth handler, frame routing);
* `Sdk`     — `SpeedTestWebSocketSdk.js` (the React Native client driver);
* `SdkNew`  — `SpeedTestWebSocketSdkNew.js` (the newer client driver).

JavaScript numbers are modelled as exact rationals (`ℚ`) for timestamps and
throughput values, with `JSNum` capturing the IEEE special values produced by
division by zero; byte counts and chunk counts are naturals.  Wall-clock reads
(`Date.now()`) are threaded as explicit `now : ℚ` parameters.
-/

namespace SpeedTest

/-- Result of a JavaScript floating-point computation: a finite value, one of
the two infinities, or NaN.  Used where the source can divide by zero. -/
inductive JSNum where
  | fin (q : ℚ)
  | posInf
  | negInf
  | nan
deriving DecidableEq

/-- JavaScript division `a / b`: finite quotient when `b ≠ 0`, otherwise
`±Infinity` by the sign of `a`, and `NaN` for `0 / 0`. -/
def jsDiv (a b : ℚ) : JSNum :=
  if b ≠ 0 then .fin (a / b)
  else if 0 < a then .posInf
  else if a < 0 then .negInf
  else .nan

/-- Multiplication of a JavaScript number by the positive constant 8
(`bytesPerSecond * 8` in both servers). -/
def jsMul8 : JSNum → JSNum
  | .fin q => .fin (q * 8)
  | .posInf => .posInf
  | .negInf => .negInf
  | .nan => .nan

/-- JavaScript `v || d` for an optional numeric field: an absent field and the
falsy value `0` both fall back to the default. -/
def jsOrNat (v : Option ℕ) (d : ℕ) : ℕ :=
  match v with
  | none => d
  | some n => if n = 0 then d else n

/-- JavaScript truthiness of a nullable string: `null`/absent and the empty
string are falsy. -/
def jsTruthyOptStr : Option String → Bool
  | none => false
  | some s => decide (s ≠ "")

/-- JavaScript truthiness of an optional numeric field: absent and `0` are
falsy (`NaN` is ignored as a field value here). -/
def jsTruthyOptNum : Option ℚ → Bool
  | none => false
  | some q => decide (q ≠ 0)

/-- JSON control message sent by a client.  Fields beyond `type` and
`requestId` are optional, mirroring the dialect differences between the two
SDKs (`chunkSize`/`totalChunks` in the old SDK, `size` in the new one). -/
structure ClientMsg where
  type : String
  requestId : String := ""
  chunkSize : Option ℕ := none
  totalChunks : Option ℕ := none
  size : Option ℕ := none
deriving DecidableEq

/-- Frames emitted by the server on one channel: JSON control messages,
binary payload frames (recorded by their length), and the close action. -/
inductive ServerOut where
  | connectedMsg (message : String) (authEnabled : Bool)
  | errorMsg (message : String)
  | pong (timestamp : ℚ) (requestId : String)
  | downloadStart (totalChunks chunkSize totalSize : ℕ) (requestId : String)
  | binaryChunk (len : ℕ)
  | downloadProgress (chunk totalChunks bytesSent totalBytes : ℕ) (progress : ℚ)
      (requestId : String)
  | downloadComplete (totalBytes : ℕ) (requestId : String)
  | uploadReady (requestId : String)
  | uploadProgress (progress : ℚ) (requestId : String)
  | uploadResult (bytesReceived : ℕ) (duration : ℚ) (bitsPerSecond : JSNum)
      (requestId : String)
  | uploadCompleteAck (requestId : String)
  | closeConn
deriving DecidableEq

/-- Recognises the `upload_result` control message. -/
def isUploadResult : ServerOut → Bool
  | .uploadResult _ _ _ _ => true
  | _ => false

/-- Recognises the `connected` welcome message. -/
def isConnectedMsg : ServerOut → Bool
  | .connectedMsg _ _ => true
  | _ => false

namespace Server

/-- The 1 MB in-memory payload of `websocket-server.js`
(`TEST_FILE_SIZE = 1024 * 1024`). -/
def TEST_FILE_SIZE : ℕ := 1024 * 1024

/-- From `validateToken` (websocket-server.js lines 396-402): with auth
disabled every token passes; otherwise `token && token.length > 0`, i.e. any
non-empty token is accepted. -/
def validateToken (enableAuth : Bool) (t : String) : Bool :=
  if !enableAuth then true
  else decide (t ≠ "") && decide (0 < t.length)

/-- From the `connection` handler (lines 42-68): with auth enabled, an absent
or falsy token, or one rejected by `validateToken`, gets a single
`{type:"error", message:"Authentication failed"}` frame followed by a close;
otherwise the `connected` welcome message is sent. -/
def connection (enableAuth : Bool) (token : Option String) : List ServerOut :=
  if enableAuth && (!(jsTruthyOptStr token) || !(validateToken enableAuth (token.getD ""))) then
    [.errorMsg "Authentication failed", .closeConn]
  else
    [.connectedMsg "Connected to Speed Test WebSocket Server" enableAuth]

/-- `Math.ceil(TEST_FILE_SIZE / chunkSize)` from `handleDownload`: real
division followed by the ceiling. -/
def downloadChunks (S C : ℕ) : ℕ := Nat.ceil ((S : ℚ) / (C : ℚ))

/-- The `sendNextChunk` loop of `handleDownload` (lines 241-281).  The loop
runs while `sentChunks < chunks`; the `fuel` argument is `chunks - sentChunks`
and encodes that guard structurally.  Each iteration slices
`testData.slice(start, min(start + chunkSize, totalSize))`, sends it as a
binary frame, and (on successful send) bumps the counters and emits a
`download_progress` message with `progress = (sentChunks / chunks) * 100`;
when the guard fails a final `download_complete` carries the accumulated
`sentBytes`. -/
def sendLoop (S C chunks : ℕ) (rid : String) : ℕ → ℕ → ℕ → List ServerOut
  | 0, _i, sentBytes => [.downloadComplete sentBytes rid]
  | fuel + 1, i, sentBytes =>
    .binaryChunk (min (i * C + C) S - i * C) ::
    .downloadProgress (i + 1) chunks (sentBytes + (min (i * C + C) S - i * C)) S
      (((i + 1 : ℕ) : ℚ) / (chunks : ℚ) * 100) rid ::
    sendLoop S C chunks rid fuel (i + 1) (sentBytes + (min (i * C + C) S - i * C))

/-- `handleDownload` (lines 221-285): `chunkSize = msg.chunkSize || 102400`,
`chunks = Math.ceil(TEST_FILE_SIZE / chunkSize)`, a `download_start` header,
then the chunk-emission loop. -/
def handleDownload (msg : ClientMsg) : List ServerOut :=
  .downloadStart (downloadChunks TEST_FILE_SIZE (jsOrNat msg.chunkSize 102400))
      (jsOrNat msg.chunkSize 102400) TEST_FILE_SIZE msg.requestId ::
    sendLoop TEST_FILE_SIZE (jsOrNat msg.chunkSize 102400)
      (downloadChunks TEST_FILE_SIZE (jsOrNat msg.chunkSize 102400)) msg.requestId
      (downloadChunks TEST_FILE_SIZE (jsOrNat msg.chunkSize 102400)) 0 0

/-- Upload tracker of `websocket-server.js` (`handleUpload`, lines 342-369).
This server variant tracks completion by total byte size.  The source keeps
`bytesReceived`/`receivedBytes` as two always-synchronised fields; they are
modelled as the single field `receivedBytes`. -/
structure UploadTracker where
  startTime : ℚ
  receivedBytes : ℕ
  totalSize : ℕ
  lastProgressUpdate : ℚ
  requestId : String
deriving DecidableEq

/-- `handleUpload` (lines 342-369): creates the tracker with
`totalSize = msg.size || 1024*1024` and replies `upload_ready`. -/
def handleUpload (now : ℚ) (msg : ClientMsg) : UploadTracker × List ServerOut :=
  ({ startTime := now, receivedBytes := 0, totalSize := jsOrNat msg.size (1024 * 1024),
     lastProgressUpdate := 0, requestId := msg.requestId },
   [.uploadReady msg.requestId])

/-- Progress percentage computed by `handleUploadChunk` once the chunk's bytes
are counted: `Math.min((receivedBytes / totalSize) * 100, 100)`. -/
def chunkProgress (tr : UploadTracker) (rb : ℕ) : ℚ :=
  min (((rb : ℕ) : ℚ) / ((tr.totalSize : ℕ) : ℚ) * 100) 100

/-- The 10%-boundary throttle of `handleUploadChunk`:
`progress >= lastProgressUpdate + 10 || progress >= 100`. -/
def emitsProgress (tr : UploadTracker) (rb : ℕ) : Bool :=
  decide (tr.lastProgressUpdate + 10 ≤ chunkProgress tr rb)
    || decide ((100 : ℚ) ≤ chunkProgress tr rb)

/-- `lastProgressUpdate` after the chunk:
`Math.floor(progress / 10) * 10` when a progress message went out. -/
def nextLastProgress (tr : UploadTracker) (rb : ℕ) : ℚ :=
  if emitsProgress tr rb then ((Int.floor (chunkProgress tr rb / 10) : ℤ) : ℚ) * 10
  else tr.lastProgressUpdate

/-- `handleUploadChunk` (lines 290-337): with no tracker the frame is ignored;
otherwise its length is added, a progress message is emitted at each 10%
boundary (or at 100%), and once `receivedBytes >= totalSize` the result
message is sent with `bitsPerSecond = (receivedBytes / duration) * 8` and the
tracker is cleared.  There is no clamping of non-positive durations. -/
def handleUploadChunk (now : ℚ) (t : Option UploadTracker) (len : ℕ) :
    Option UploadTracker × List ServerOut :=
  match t with
  | none => (none, [])
  | some tr =>
    if tr.totalSize ≤ tr.receivedBytes + len then
      (none,
        (if emitsProgress tr (tr.receivedBytes + len) then
          [.uploadProgress (chunkProgress tr (tr.receivedBytes + len)) tr.requestId]
         else []) ++
        [.uploadResult (tr.receivedBytes + len) ((now - tr.startTime) / 1000)
          (jsMul8 (jsDiv (((tr.receivedBytes + len : ℕ)) : ℚ) ((now - tr.startTime) / 1000)))
          tr.requestId])
    else
      (some { tr with
                receivedBytes := tr.receivedBytes + len,
                lastProgressUpdate := nextLastProgress tr (tr.receivedBytes + len) },
       if emitsProgress tr (tr.receivedBytes + len) then
         [.uploadProgress (chunkProgress tr (tr.receivedBytes + len)) tr.requestId]
       else [])

/-- Feeds a sequence of binary frames (arrival time, byte length) through
`handleUploadChunk`, collecting all emitted messages. -/
def runUpload : List (ℚ × ℕ) → Option UploadTracker → Option UploadTracker × List ServerOut
  | [], t => (t, [])
  | p :: rest, t =>
    ((runUpload rest (handleUploadChunk p.1 t p.2).1).1,
     (handleUploadChunk p.1 t p.2).2 ++ (runUpload rest (handleUploadChunk p.1 t p.2).1).2)

/-- ASCII whitespace recognised by `String.prototype.trim`. -/
def isWS (c : Char) : Bool := c = ' ' || c = '\t' || c = '\n' || c = '\r'

/-- The character list of `messageStr.trim()`. -/
def trimmedChars (s : String) : List Char :=
  ((s.toList.dropWhile isWS).reverse.dropWhile isWS).reverse

/-- The frame-sniffing test of the `message` handler (lines 86-94):
`messageStr.trim().startsWith('\x7b') && messageStr.trim().endsWith('\x7d')`.
Since both affixes are single characters this is the first/last character of
the trimmed text. -/
def isJsonLike (s : String) : Bool :=
  decide ((trimmedChars s).head? = some '\x7b') && decide ((trimmedChars s).getLast? = some '\x7d')

/-- How the `message` handler routes an inbound frame. -/
inductive IncomingRoute where
  | jsonControl
  | uploadData
deriving DecidableEq

/-- Routing decision of the `message` handler (lines 71-94): the frame's
decoded text decides — brace-delimited text is processed as a JSON control
message, everything else goes to `handleUploadChunk`.  The frame's
binary/text type is never consulted. -/
def classifyFrame (messageStr : String) : IncomingRoute :=
  if isJsonLike messageStr then .jsonControl else .uploadData

/-- The `message` handler's effect on the upload tracker (lines 71-94).  On
the JSON route the frame is handed to the control-message switch (ping,
download, upload, ...; their replies are modelled by the dedicated handlers
above) and `handleUploadChunk` is never invoked; on the data route the frame's
byte length is fed to `handleUploadChunk`. -/
def incoming (now : ℚ) (t : Option UploadTracker) (messageStr : String) :
    IncomingRoute × (Option UploadTracker × List ServerOut) :=
  match classifyFrame messageStr with
  | .jsonControl => (.jsonControl, (t, []))
  | .uploadData => (.uploadData, handleUploadChunk now t messageStr.length)

/-- Byte count held by an optional tracker. -/
def trackerBytes : Option UploadTracker → ℕ
  | none => 0
  | some tr => tr.receivedBytes

end Server

/-- Result object passed to a client driver's stored completion handler.  The
handler closures installed by the test operations all clear the
test-in-progress flag and then resolve or reject the pending future according
to which field is populated. -/
inductive CompletionResult where
  | pingTime (t : ℚ)
  | downloadSpeed (bps : JSNum)
  | uploadSpeed (bps : ℚ)
  | errorResult (message : String)
deriving DecidableEq

/-- Observable actions of a client driver: invoking the stored completion
handler (resolving/rejecting the pending future), invoking the progress sink,
sending a JSON or binary frame, closing the socket, or firing the auxiliary
connection/error callbacks of the new SDK. -/
inductive Effect where
  | completion (r : CompletionResult)
  | progress (p : ℚ)
  | sendJson (m : ClientMsg)
  | sendBinary (len : ℕ)
  | closeSocket
  | connectionEvent (connected : Bool)
  | errorEvent (message : String)
deriving DecidableEq

/-- Inbound JSON control message as seen by a client driver, with the optional
fields the handlers read. -/
structure InMsg where
  type : String
  requestId : Option String := none
  totalSize : Option ℕ := none
  totalBytes : Option ℕ := none
  progress : Option ℚ := none
  bitsPerSecond : Option ℚ := none
  message : Option String := none
deriving DecidableEq

/-- The error message both drivers throw when a test is already outstanding. -/
def testInProgressMsg : String := "A test is already in progress"

/-- Synchronous outcome of a client test operation: the driver state after the
call, the JSON frames sent, and the error it threw or rejected with, if any. -/
structure OpResult (σ : Type) where
  state : σ
  sent : List ClientMsg
  failed : Option String
deriving DecidableEq

namespace Sdk

/-- Mutable state of a `SpeedTestWebSocketSdk` instance (constructor, lines
18-49).  Handler closures are tracked by presence. -/
structure SdkState where
  isConnected : Bool := false
  webSocket : Bool := false
  testInProgress : Bool := false
  currentRequestId : Option String := none
  pingStartTime : ℚ := 0
  downloadStartTime : ℚ := 0
  uploadStartTime : ℚ := 0
  totalBytes : ℕ := 0
  receivedBytes : ℕ := 0
  hasProgressHandler : Bool := false
  hasCompletionHandler : Bool := false
deriving DecidableEq

/-- Invoking `this.completionHandler(result)` when present.  Every handler
closure installed by `testPing`/`testDownloadSpeed`/`testUploadSpeed`/
`runFullTest` first clears `testInProgress` and then settles the pending
promise with the carried result. -/
def callCompletion (s : SdkState) (r : CompletionResult) : SdkState × List Effect :=
  if s.hasCompletionHandler then
    ({ s with testInProgress := false }, [.completion r])
  else (s, [])

/-- Chunk lengths of `sendUploadData` (lines 463-498): 10 chunks of
102400 bytes each. -/
def sdkUploadChunkSizes : List ℕ := List.replicate 10 102400

/-- Effects of `sendUploadData`: the 10 binary chunks followed (after the last
chunk) by the `upload_complete` control message. -/
def sendUploadDataEffects (rid : Option String) : List Effect :=
  sdkUploadChunkSizes.map .sendBinary ++
    [.sendJson { type := "upload_complete", requestId := rid.getD "" }]

/-- Message dispatch of `handleMessage` once the requestId filter has passed
(lines 349-375 together with the `messageHandlers` table of lines 38-48 and
the individual handlers of lines 399-458).  Unknown types are ignored. -/
def dispatch (s : SdkState) (now : ℚ) (m : InMsg) : SdkState × List Effect :=
  if m.type = "connected" then ({ s with isConnected := true }, [])
  else if m.type = "pong" then callCompletion s (.pingTime (now - s.pingStartTime))
  else if m.type = "download_start" then
    ({ s with downloadStartTime := now, totalBytes := jsOrNat m.totalSize 0, receivedBytes := 0 }, [])
  else if m.type = "download_progress" then
    (s, if s.hasProgressHandler && jsTruthyOptNum m.progress then [.progress (m.progress.getD 0)] else [])
  else if m.type = "download_complete" then
    callCompletion s (.downloadSpeed (jsMul8 (jsDiv ((jsOrNat m.totalBytes s.receivedBytes : ℕ) : ℚ)
      ((now - s.downloadStartTime) / 1000))))
  else if m.type = "upload_ready" then
    ({ s with uploadStartTime := now }, sendUploadDataEffects s.currentRequestId)
  else if m.type = "upload_progress" then
    (s, if s.hasProgressHandler && jsTruthyOptNum m.progress then [.progress (m.progress.getD 0)] else [])
  else if m.type = "upload_result" then
    (if s.hasCompletionHandler && jsTruthyOptNum m.bitsPerSecond then
      callCompletion s (.uploadSpeed (m.bitsPerSecond.getD 0))
     else (s, []))
  else if m.type = "error" then
    callCompletion s (.errorResult ((m.message.getD "Unknown error")))
  else (s, [])

/-- `handleMessage` for JSON frames (lines 349-375): a message whose
`requestId` is truthy and differs from a truthy `currentRequestId` is dropped
before any handler runs; otherwise it is dispatched by `type`. -/
def handleMessage (s : SdkState) (now : ℚ) (m : InMsg) : SdkState × List Effect :=
  if jsTruthyOptStr s.currentRequestId && jsTruthyOptStr m.requestId
      && decide (s.currentRequestId ≠ m.requestId) then
    (s, [])
  else dispatch s now m

/-- `disconnect` (lines 233-239): closes and clears the socket when present,
otherwise does nothing. -/
def disconnect (s : SdkState) : SdkState × List Effect :=
  if s.webSocket then
    ({ s with webSocket := false, isConnected := false }, [.closeSocket])
  else (s, [])

/-- Whether a `connectWebSocket` call resolved on the spot or had to open a
fresh socket. -/
inductive ConnectCall where
  | resolvedImmediately
  | openedNewSocket
deriving DecidableEq

/-- The synchronous branch structure of `connectWebSocket` (lines 246-261):
already connected with a live socket resolves immediately; otherwise a new
`WebSocket` is constructed and the outcome is decided by the later callback
events (see `connectOutcome`). -/
def connectWebSocket (s : SdkState) : SdkState × ConnectCall :=
  if s.isConnected && s.webSocket then (s, .resolvedImmediately)
  else ({ s with webSocket := true }, .openedNewSocket)

/-- Callback events that can reach a freshly opened socket, in arrival order:
`onopen`, `onerror`, the 5-second connection timer, and the server's
`connected` JSON message (which `handleConnected` turns into
`isConnected = true`). -/
inductive CEvent where
  | sockOpen
  | sockError
  | timeout5s
  | connectedMsg
deriving DecidableEq

/-- Settlement state of the `connectWebSocket` promise. -/
inductive COutcome where
  | pending
  | success
  | failure (message : String)
deriving DecidableEq

/-- One callback firing (lines 263-292).  The pair is
(`isConnected`, promise state); a promise settles at most once.  `onopen` sets
`isConnected` and resolves; `onerror` rejects only while not connected; the
5 s timer rejects with `Connection timeout` if the socket never opened; the
server's `connected` message sets `isConnected` but settles nothing. -/
def cstep : Bool × COutcome → CEvent → Bool × COutcome
  | st, .sockOpen => (true, if st.2 = .pending then .success else st.2)
  | st, .sockError =>
    (st.1, if st.2 = .pending ∧ st.1 = false then .failure "Connection failed" else st.2)
  | st, .timeout5s =>
    (st.1, if st.2 = .pending ∧ st.1 = false then .failure "Connection timeout" else st.2)
  | st, .connectedMsg => (true, st.2)

/-- Promise state of a fresh `connectWebSocket` attempt after a sequence of
callback events. -/
def connectOutcome (events : List CEvent) : COutcome :=
  (events.foldl cstep (false, .pending)).2

/-- `testPing` (lines 57-91): fail fast when a test is outstanding, otherwise
set the flags, connect (outcome abstracted by `connectOk`), install the
completion handler and send the ping request. -/
def testPing (s : SdkState) (newId : String) (now : ℚ) (connectOk : Bool) : OpResult SdkState :=
  if s.testInProgress then ⟨s, [], some testInProgressMsg⟩
  else
    if connectOk then
      ⟨{ s with
          testInProgress := true,
          pingStartTime := now,
          currentRequestId := some newId,
          isConnected := true,
          webSocket := true,
          hasCompletionHandler := true },
       [{ type := "ping", requestId := newId }], none⟩
    else
      ⟨{ s with
          testInProgress := false,
          pingStartTime := now,
          currentRequestId := some newId },
       [], some "Connection failed"⟩

/-- `testDownloadSpeed` (lines 100-136); the request carries
`chunkSize = options.chunkSize || 102400`. -/
def testDownloadSpeed (s : SdkState) (chunkSize? : Option ℕ) (hasProg : Bool)
    (newId : String) (now : ℚ) (connectOk : Bool) : OpResult SdkState :=
  if s.testInProgress then ⟨s, [], some testInProgressMsg⟩
  else
    if connectOk then
      ⟨{ s with
          testInProgress := true,
          downloadStartTime := now,
          currentRequestId := some newId,
          hasProgressHandler := hasProg,
          isConnected := true,
          webSocket := true,
          hasCompletionHandler := true },
       [{ type := "download", chunkSize := some (jsOrNat chunkSize? 102400), requestId := newId }],
       none⟩
    else
      ⟨{ s with
          testInProgress := false,
          downloadStartTime := now,
          currentRequestId := some newId,
          hasProgressHandler := hasProg },
       [], some "Connection failed"⟩

/-- `testUploadSpeed` (lines 145-181); the request carries
`totalChunks = options.totalChunks || 10` and no `size` field. -/
def testUploadSpeed (s : SdkState) (totalChunks? : Option ℕ) (hasProg : Bool)
    (newId : String) (now : ℚ) (connectOk : Bool) : OpResult SdkState :=
  if s.testInProgress then ⟨s, [], some testInProgressMsg⟩
  else
    if connectOk then
      ⟨{ s with
          testInProgress := true,
          uploadStartTime := now,
          currentRequestId := some newId,
          hasProgressHandler := hasProg,
          isConnected := true,
          webSocket := true,
          hasCompletionHandler := true },
       [{ type := "upload", totalChunks := some (jsOrNat totalChunks? 10), requestId := newId }],
       none⟩
    else
      ⟨{ s with
          testInProgress := false,
          uploadStartTime := now,
          currentRequestId := some newId,
          hasProgressHandler := hasProg },
       [], some "Connection failed"⟩

/-- The upload request `testUploadSpeed` sends with default options: a
`totalChunks` dialect message carrying no `size` field. -/
def sdkUploadRequest (rid : String) : ClientMsg :=
  { type := "upload", totalChunks := some 10, requestId := rid }

/-- `runFullTest` (lines 190-228); the request carries both `chunkSize` and
`totalChunks` with the same defaults. -/
def runFullTest (s : SdkState) (chunkSize? totalChunks? : Option ℕ) (hasProg : Bool)
    (newId : String) (_now : ℚ) (connectOk : Bool) : OpResult SdkState :=
  if s.testInProgress then ⟨s, [], some testInProgressMsg⟩
  else
    if connectOk then
      ⟨{ s with
          testInProgress := true,
          currentRequestId := some newId,
          hasProgressHandler := hasProg,
          isConnected := true,
          webSocket := true,
          hasCompletionHandler := true },
       [{ type := "full_test", chunkSize := some (jsOrNat chunkSize? 102400),
          totalChunks := some (jsOrNat totalChunks? 10), requestId := newId }],
       none⟩
    else
      ⟨{ s with
          testInProgress := false,
          currentRequestId := some newId,
          hasProgressHandler := hasProg },
       [], some "Connection failed"⟩

end Sdk

namespace SdkNew

/-- Mutable state of a `SpeedTestWebSocketSdkNew` instance (constructor,
lines 27-53). -/
structure NewState where
  isConnected : Bool := false
  ws : Bool := false
  testInProgress : Bool := false
  currentRequestId : Option String := none
  pingStartTime : ℚ := 0
  downloadStartTime : ℚ := 0
  uploadStartTime : ℚ := 0
  receivedBytes : ℕ := 0
  totalBytes : ℕ := 0
  uploadedBytes : ℕ := 0
  hasProgressHandler : Bool := false
  hasCompletionHandler : Bool := false
  hasErrorHandler : Bool := false
  hasConnectionHandler : Bool := false
deriving DecidableEq

/-- Invoking the stored completion handler; as in the old SDK every installed
closure clears `testInProgress` before settling the pending promise. -/
def callCompletion (s : NewState) (r : CompletionResult) : NewState × List Effect :=
  if s.hasCompletionHandler then
    ({ s with testInProgress := false }, [.completion r])
  else (s, [])

/-- Chunk lengths of the new SDK's `sendUploadData` (lines 377-420): 0.5 MB in
64 KB chunks, i.e. `ceil(524288 / 65536) = 8` chunks of 65536 bytes. -/
def newUploadChunkSizes : List ℕ := List.replicate 8 65536

/-- `handleMessage` (lines 190-242): JSON messages are dispatched purely on
their `type` — the new SDK performs no `requestId` correlation, so every
handler runs regardless of which request a message belongs to. -/
def handleMessage (s : NewState) (now : ℚ) (m : InMsg) : NewState × List Effect :=
  if m.type = "connected" then
    (s, if s.hasConnectionHandler then [.connectionEvent true] else [])
  else if m.type = "pong" then callCompletion s (.pingTime (now - s.pingStartTime))
  else if m.type = "download_start" then
    ({ s with
        downloadStartTime := now,
        receivedBytes := 0,
        totalBytes := jsOrNat m.totalSize 0 },
     if s.hasProgressHandler then [.progress 0] else [])
  else if m.type = "download_progress" then
    (s, if s.hasProgressHandler then [.progress (min (m.progress.getD 0) 100)] else [])
  else if m.type = "download_complete" then
    callCompletion s (.downloadSpeed (.fin
      (if 0 < (now - s.downloadStartTime) / 1000 then
        ((jsOrNat m.totalBytes s.receivedBytes : ℕ) : ℚ) * 8 / ((now - s.downloadStartTime) / 1000)
       else 0)))
  else if m.type = "upload_ready" then
    ({ s with uploadStartTime := now, uploadedBytes := 0 },
     (if s.hasProgressHandler then [.progress 0] else []) ++ newUploadChunkSizes.map .sendBinary)
  else if m.type = "upload_progress" then
    (s, if s.hasProgressHandler then [.progress (min (m.progress.getD 0) 100)] else [])
  else if m.type = "upload_result" then
    callCompletion s (.uploadSpeed
      (if 0 < (now - s.uploadStartTime) / 1000 then
        ((jsOrNat m.totalBytes s.uploadedBytes : ℕ) : ℚ) * 8 / ((now - s.uploadStartTime) / 1000)
       else 0))
  else if m.type = "upload_complete_ack" then (s, [])
  else if m.type = "error" then
    (s, if s.hasErrorHandler then [.errorEvent (m.message.getD "Unknown error")] else [])
  else (s, [])

/-- `disconnect` (lines 121-128): closes the socket when present and always
clears `isConnected` and `testInProgress`. -/
def disconnect (s : NewState) : NewState × List Effect :=
  if s.ws then
    ({ s with ws := false, isConnected := false, testInProgress := false }, [.closeSocket])
  else
    ({ s with isConnected := false, testInProgress := false }, [])

/-- The synchronous branch structure of `connect` (lines 69-116): when already
connected the promise resolves at once and no socket is constructed. -/
def connect (s : NewState) : NewState × Sdk.ConnectCall :=
  if s.isConnected then (s, .resolvedImmediately)
  else ({ s with ws := true }, .openedNewSocket)

/-- `testPing` (lines 480-518): fail fast when a test is outstanding; then
install handlers, connect (`connectOk`), record the start time and request id
and send the ping request (`sendOk` abstracts `sendMessage`'s Boolean). -/
def testPing (s : NewState) (newId : String) (now : ℚ) (connectOk sendOk hasProg hasErr : Bool) :
    OpResult NewState :=
  if s.testInProgress then ⟨s, [], some testInProgressMsg⟩
  else
    if !connectOk then
      ⟨{ s with
          testInProgress := false,
          hasProgressHandler := hasProg,
          hasErrorHandler := hasErr },
       [], some "WebSocket connection failed"⟩
    else
      if sendOk then
        ⟨{ s with
            testInProgress := true,
            hasProgressHandler := hasProg,
            hasErrorHandler := hasErr,
            isConnected := true,
            ws := true,
            hasCompletionHandler := true,
            pingStartTime := now,
            currentRequestId := some newId },
         [{ type := "ping", requestId := newId }], none⟩
      else
        ⟨{ s with
            testInProgress := false,
            hasProgressHandler := hasProg,
            hasErrorHandler := hasErr,
            isConnected := true,
            ws := true,
            hasCompletionHandler := true,
            pingStartTime := now,
            currentRequestId := some newId },
         [], some "Failed to send ping request"⟩

/-- `testDownloadSpeed` (lines 529-568); the request carries
`size = options.size || 512*1024`. -/
def testDownloadSpeed (s : NewState) (size? : Option ℕ) (newId : String) (now : ℚ)
    (connectOk sendOk hasProg hasErr : Bool) : OpResult NewState :=
  if s.testInProgress then ⟨s, [], some testInProgressMsg⟩
  else
    if !connectOk then
      ⟨{ s with
          testInProgress := false,
          hasProgressHandler := hasProg,
          hasErrorHandler := hasErr },
       [], some "WebSocket connection failed"⟩
    else
      if sendOk then
        ⟨{ s with
            testInProgress := true,
            hasProgressHandler := hasProg,
            hasErrorHandler := hasErr,
            isConnected := true,
            ws := true,
            hasCompletionHandler := true,
            currentRequestId := some newId,
            downloadStartTime := now },
         [{ type := "download", size := some (jsOrNat size? (512 * 1024)), requestId := newId }],
         none⟩
      else
        ⟨{ s with
            testInProgress := false,
            hasProgressHandler := hasProg,
            hasErrorHandler := hasErr,
            isConnected := true,
            ws := true,
            hasCompletionHandler := true,
            currentRequestId := some newId,
            downloadStartTime := now },
         [], some "Failed to send download request"⟩

/-- `testUploadSpeed` (lines 579-618); the request carries
`size = options.size || 512*1024` and no `totalChunks` field. -/
def testUploadSpeed (s : NewState) (size? : Option ℕ) (newId : String) (now : ℚ)
    (connectOk sendOk hasProg hasErr : Bool) : OpResult NewState :=
  if s.testInProgress then ⟨s, [], some testInProgressMsg⟩
  else
    if !connectOk then
      ⟨{ s with
          testInProgress := false,
          hasProgressHandler := hasProg,
          hasErrorHandler := hasErr },
       [], some "WebSocket connection failed"⟩
    else
      if sendOk then
        ⟨{ s with
            testInProgress := true,
            hasProgressHandler := hasProg,
            hasErrorHandler := hasErr,
            isConnected := true,
            ws := true,
            hasCompletionHandler := true,
            currentRequestId := some newId,
            uploadStartTime := now },
         [{ type := "upload", size := some (jsOrNat size? (512 * 1024)), requestId := newId }],
         none⟩
      else
        ⟨{ s with
            testInProgress := false,
            hasProgressHandler := hasProg,
            hasErrorHandler := hasErr,
            isConnected := true,
            ws := true,
            hasCompletionHandler := true,
            currentRequestId := some newId,
            uploadStartTime := now },
         [], some "Failed to send upload request"⟩

/-- `runFullTest` (lines 629-673): fail fast when a test is outstanding;
otherwise it does not set any flag itself and immediately delegates to
`testPing` (passing only `onError`), continuing with the download and upload
legs only after the previous leg resolves. -/
def runFullTest (s : NewState) (newId : String) (now : ℚ) (connectOk sendOk hasErr : Bool) :
    OpResult NewState :=
  if s.testInProgress then ⟨s, [], some testInProgressMsg⟩
  else testPing s newId now connectOk sendOk false hasErr

end SdkNew

namespace Server

/-- Lengths of the binary frames in an emission sequence. -/
def frameLens : List ServerOut → List ℕ
  | [] => []
  | .binaryChunk n :: r => n :: frameLens r
  | _ :: r => frameLens r

/-- The `totalBytes` field of the first `download_complete` message. -/
def completeBytes : List ServerOut → Option ℕ
  | [] => none
  | .downloadComplete b _ :: _ => some b
  | _ :: r => completeBytes r

/-- The `progress` fields of the `download_progress` messages, in order. -/
def progressVals : List ServerOut → List ℚ
  | [] => []
  | .downloadProgress _ _ _ _ p _ :: r => p :: progressVals r
  | _ :: r => progressVals r

theorem sendLoop_completeBytes (S C chunks : ℕ) (rid : String) :
    ∀ fuel i b : ℕ, completeBytes (sendLoop S C chunks rid fuel i b)
      = some (b + (frameLens (sendLoop S C chunks rid fuel i b)).sum) := by
  intro fuel
  induction fuel with
  | zero => intro i b; simp [sendLoop, completeBytes, frameLens]
  | succ n ih => intro i b; simp [sendLoop, completeBytes, frameLens, ih, Nat.add_assoc]

theorem sendLoop_progressVals (S C chunks : ℕ) (rid : String) :
    ∀ fuel i b : ℕ, progressVals (sendLoop S C chunks rid fuel i b)
      = (List.range' (i + 1) fuel).map (fun k => ((k : ℕ) : ℚ) / (chunks : ℚ) * 100) := by
  intro fuel
  induction fuel with
  | zero => intro i b; simp [sendLoop, progressVals]
  | succ n ih => intro i b; simp [sendLoop, progressVals, ih, List.range'_succ]

theorem progressVals_map_mono (chunks : ℕ) (l : List ℕ) (h : l.Pairwise (· ≤ ·)) :
    (l.map (fun k => ((k : ℕ) : ℚ) / (chunks : ℚ) * 100)).Pairwise (· ≤ ·) := by
  refine List.Pairwise.map _ (fun a b hab => ?_) h
  rcases Nat.eq_zero_or_pos chunks with hc | hc
  · simp [hc]
  · have hcq : (0 : ℚ) < (chunks : ℚ) := by exact_mod_cast hc
    have hab' : ((a : ℕ) : ℚ) ≤ ((b : ℕ) : ℚ) := by exact_mod_cast hab
    gcongr

theorem progressVals_last (chunks : ℕ) (h : chunks ≠ 0) :
    ((List.range' 1 chunks).map (fun k => ((k : ℕ) : ℚ) / (chunks : ℚ) * 100)).getLast?
      = some 100 := by
  obtain ⟨m, rfl⟩ := Nat.exists_eq_succ_of_ne_zero h
  rw [List.range'_concat, List.map_append]
  simp only [List.map_cons, List.map_nil]
  rw [List.getLast?_concat]
  have h1 : (1 + 1 * m : ℕ) = m + 1 := by omega
  have hne : ((m + 1 : ℕ) : ℚ) ≠ 0 := by positivity
  rw [h1, div_self hne, one_mul]

/-- The complete emission sequence of a download test for a request with an
explicit chunk size. -/
def downloadRun (C : ℕ) (rid : String) : List ServerOut :=
  handleDownload { type := "download", requestId := rid, chunkSize := some C }

end Server

/-- Claim C3: for every download test with the server's payload size
`S = TEST_FILE_SIZE` and requested chunk size `C > 0`, the `download_start`
header reports `totalChunks = ceil(S / C)`; the `totalBytes` field of the
final `download_complete` message equals the sum of the lengths of all binary
frames sent; and the `download_progress` values are monotonically
non-decreasing and are exactly 100 on the final chunk. -/
theorem download_start_sum_progress_c3 (C : ℕ) (rid : String) (hC : 0 < C) :
    (Server.downloadRun C rid).head? =
      some (.downloadStart (Nat.ceil ((Server.TEST_FILE_SIZE : ℚ) / (C : ℚ))) C
        Server.TEST_FILE_SIZE rid)
    ∧ Server.completeBytes (Server.downloadRun C rid)
      = some ((Server.frameLens (Server.downloadRun C rid)).sum)
    ∧ (Server.progressVals (Server.downloadRun C rid)).Pairwise (· ≤ ·)
    ∧ (Server.progressVals (Server.downloadRun C rid)).getLast? = some 100 := by
  have hCne : C ≠ 0 := Nat.pos_iff_ne_zero.mp hC
  have hjs : jsOrNat (some C) 102400 = C := by simp [jsOrNat, hCne]
  have hn : Server.downloadChunks Server.TEST_FILE_SIZE C ≠ 0 := by
    have hS : (0 : ℚ) < (Server.TEST_FILE_SIZE : ℚ) := by norm_num [Server.TEST_FILE_SIZE]
    have hCq : (0 : ℚ) < (C : ℚ) := by exact_mod_cast hC
    have : 0 < Server.downloadChunks Server.TEST_FILE_SIZE C :=
      Nat.ceil_pos.mpr (div_pos hS hCq)
    omega
  refine ⟨?_, ?_, ?_, ?_⟩
  · simp [Server.downloadRun, Server.handleDownload, hjs, Server.downloadChunks]
  · simp only [Server.downloadRun, Server.handleDownload, hjs, Server.completeBytes,
      Server.frameLens]
    rw [Server.sendLoop_completeBytes]
    simp
  · simp only [Server.downloadRun, Server.handleDownload, hjs, Server.progressVals]
    rw [Server.sendLoop_progressVals]
    exact Server.progressVals_map_mono _ _ (List.pairwise_le_range' 1 _)
  · simp only [Server.downloadRun, Server.handleDownload, hjs, Server.progressVals]
    rw [Server.sendLoop_progressVals]
    exact Server.progressVals_last _ hn

/-- Witness for C3 at the scenario of §8 of the specification: a download of
the 1,048,576-byte payload in 102,400-byte chunks. -/
theorem download_start_sum_progress_c3_witness :
    (Server.progressVals (Server.downloadRun 102400 "r")).getLast? = some 100
    ∧ Server.completeBytes (Server.downloadRun 102400 "r")
      = some ((Server.frameLens (Server.downloadRun 102400 "r")).sum) := by
  have h := download_start_sum_progress_c3 102400 "r" (by norm_num)
  exact ⟨h.2.2.2, h.2.1⟩

namespace Server

theorem handleUploadChunk_not_complete (now : ℚ) (tr : UploadTracker) (len : ℕ)
    (h : tr.receivedBytes + len < tr.totalSize) :
    (handleUploadChunk now (some tr) len).1 =
      some { tr with
              receivedBytes := tr.receivedBytes + len,
              lastProgressUpdate := nextLastProgress tr (tr.receivedBytes + len) }
    ∧ ((handleUploadChunk now (some tr) len).2.all fun m => !(isUploadResult m)) = true := by
  have hle : ¬ tr.totalSize ≤ tr.receivedBytes + len := by omega
  constructor
  · simp [handleUploadChunk, hle]
  · simp only [handleUploadChunk, hle, if_false]
    split <;> simp [isUploadResult]

theorem runUpload_no_result (ps : List (ℚ × ℕ)) :
    ∀ tr : UploadTracker, tr.receivedBytes + (ps.map fun p => p.2).sum < tr.totalSize →
      ((runUpload ps (some tr)).2.all fun m => !(isUploadResult m)) = true
      ∧ (runUpload ps (some tr)).1.isSome = true := by
  induction ps with
  | nil => intro tr _h; simp [runUpload]
  | cons p rest ih =>
    intro tr h
    simp only [List.map_cons, List.sum_cons] at h
    have h1 : tr.receivedBytes + p.2 < tr.totalSize := by omega
    obtain ⟨hst, hall⟩ := handleUploadChunk_not_complete p.1 tr p.2 h1
    have hrec := ih
      { tr with
          receivedBytes := tr.receivedBytes + p.2,
          lastProgressUpdate := nextLastProgress tr (tr.receivedBytes + p.2) }
      (by simp only []; omega)
    simp only [runUpload, hst, List.all_append, Bool.and_eq_true]
    exact ⟨⟨hall, hrec.1⟩, hrec.2⟩

theorem zip_replicate_snd_sum (ts : List ℚ) :
    ∀ n a : ℕ, ((ts.zip (List.replicate n a)).map fun p => p.2).sum ≤ n * a := by
  induction ts with
  | nil => intro n a; simp
  | cons t ts ih =>
    intro n a
    cases n with
    | zero => simp
    | succ m =>
      simp only [List.replicate_succ, List.zip_cons_cons, List.map_cons, List.sum_cons]
      calc a + ((ts.zip (List.replicate m a)).map fun p => p.2).sum
          ≤ a + m * a := Nat.add_le_add_left (ih m a) a
        _ = m * a + a := Nat.add_comm a (m * a)
        _ = (m + 1) * a := (Nat.succ_mul m a).symm

end Server

/-- Claim C4: an upload driven by the chunk-count dialect of
`SpeedTestWebSocketSdk` (a request carrying `totalChunks` and no `size`, then
10 binary chunks of 102,400 bytes = 1,024,000 bytes) against the
byte-size-tracking server of `websocket-server.js` (which defaults
`totalSize` to 1,048,576 bytes) never produces an `upload_result` message and
leaves the tracker active, whatever the chunk arrival times: the upload never
terminates. -/
theorem upload_dialect_never_terminates_c4 (t0 : ℚ) (rid : String) (times : List ℚ) :
    ((Server.runUpload (times.zip Sdk.sdkUploadChunkSizes)
        (some (Server.handleUpload t0 (Sdk.sdkUploadRequest rid)).1)).2.all
      fun m => !(isUploadResult m)) = true
    ∧ (Server.runUpload (times.zip Sdk.sdkUploadChunkSizes)
        (some (Server.handleUpload t0 (Sdk.sdkUploadRequest rid)).1)).1.isSome = true := by
  have htr : (Server.handleUpload t0 (Sdk.sdkUploadRequest rid)).1 =
      { startTime := t0, receivedBytes := 0, totalSize := 1048576,
        lastProgressUpdate := 0, requestId := rid } := by
    simp [Server.handleUpload, Sdk.sdkUploadRequest, jsOrNat]
  rw [htr]
  apply Server.runUpload_no_result
  have hsum := Server.zip_replicate_snd_sum times 10 102400
  simp only [Sdk.sdkUploadChunkSizes]
  omega

/-- Claim C1 (amended): whenever `handleUploadChunk` completes an upload and the
elapsed duration is positive, the emitted `upload_result` reports exactly
`bitsPerSecond = bytesReceived * 8 / duration` and the tracker is cleared.
(The claimed clamping of non-positive durations to 0 does not exist in the
code; see the counterexample.) -/
theorem upload_result_formula_c1 (now : ℚ) (tr : Server.UploadTracker) (len : ℕ)
    (hdone : tr.totalSize ≤ tr.receivedBytes + len)
    (hdur : 0 < (now - tr.startTime) / 1000) :
    (Server.handleUploadChunk now (some tr) len).1 = none
    ∧ (Server.handleUploadChunk now (some tr) len).2.getLast? =
        some (.uploadResult (tr.receivedBytes + len) ((now - tr.startTime) / 1000)
          (.fin ((((tr.receivedBytes + len : ℕ)) : ℚ) * 8 / ((now - tr.startTime) / 1000)))
          tr.requestId) := by
  have hne : (now - tr.startTime) / 1000 ≠ 0 := ne_of_gt hdur
  constructor
  · simp [Server.handleUploadChunk, hdone]
  · simp only [Server.handleUploadChunk]
    rw [if_pos hdone, List.getLast?_concat]
    simp [jsDiv, jsMul8, hne, div_mul_eq_mul_div]

/-- Witness for C1: completing a 1000-byte upload after 2 seconds reports
4000 bits per second. -/
theorem upload_result_formula_c1_witness :
    (Server.handleUploadChunk 2000
        (some { startTime := 0, receivedBytes := 0, totalSize := 1000,
                lastProgressUpdate := 0, requestId := "r" }) 1000).1 = none
    ∧ (Server.handleUploadChunk 2000
        (some { startTime := 0, receivedBytes := 0, totalSize := 1000,
                lastProgressUpdate := 0, requestId := "r" }) 1000).2.getLast? =
      some (.uploadResult 1000 2 (.fin 4000) "r") := by
  have h := upload_result_formula_c1 2000
    { startTime := 0, receivedBytes := 0, totalSize := 1000,
      lastProgressUpdate := 0, requestId := "r" } 1000 (by norm_num) (by norm_num)
  norm_num at h
  exact h

/-- Counterexample for C1 as stated: when the elapsed duration is 0 (chunk
completing in the same millisecond the tracker started), the reported
`bitsPerSecond` is `Infinity`, not the claimed clamped 0. -/
theorem upload_result_no_clamp_c1_cex :
    (Server.handleUploadChunk 0
        (some { startTime := 0, receivedBytes := 0, totalSize := 1000,
                lastProgressUpdate := 0, requestId := "r" }) 1000).2 =
      [.uploadProgress 100 "r", .uploadResult 1000 0 .posInf "r"]
    ∧ JSNum.posInf ≠ JSNum.fin 0 := by
  constructor
  · have hprog : Server.chunkProgress
        { startTime := 0, receivedBytes := 0, totalSize := 1000,
          lastProgressUpdate := 0, requestId := "r" } 1000 = 100 := by
      norm_num [Server.chunkProgress]
    simp [Server.handleUploadChunk, Server.emitsProgress, hprog, jsDiv, jsMul8]
  · simp

/-- Claim C6: with authentication enabled, a connection whose token query parameter
is absent or rejected by `validateToken` receives exactly one
`{type:"error", message:"Authentication failed"}` frame followed by a close,
and no `connected` message is ever sent on that channel. -/
theorem auth_failure_frames_c6 (token : Option String)
    (h : token = none ∨ Server.validateToken true (token.getD "") = false) :
    Server.connection true token = [.errorMsg "Authentication failed", .closeConn]
    ∧ (Server.connection true token).all (fun o => !(isConnectedMsg o)) = true := by
  have hbranch : Server.connection true token
      = [.errorMsg "Authentication failed", .closeConn] := by
    rcases h with h | h
    · subst h; simp [Server.connection, jsTruthyOptStr]
    · simp [Server.connection, h]
  refine ⟨hbranch, ?_⟩
  rw [hbranch]
  simp [isConnectedMsg]

/-- Witness for C6: the no-token handshake of §8 of the specification. -/
theorem auth_failure_frames_c6_witness :
    Server.connection true none = [.errorMsg "Authentication failed", .closeConn] :=
  (auth_failure_frames_c6 none (Or.inl rfl)).1

/-- Example active tracker used to exercise the frame-routing claims. -/
def exUploadTracker : Server.UploadTracker :=
  { startTime := 0, receivedBytes := 0, totalSize := 1048576,
    lastProgressUpdate := 0, requestId := "r" }

/-- Claim C8 (amended): in `websocket-server.js` the routing of an inbound frame
ignores the frame's binary/text type and inspects its decoded content: any
frame that does not trim to brace-delimited text is passed to
`handleUploadChunk`, which adds its length to the active tracker; a frame
whose bytes do trim to brace-delimited text is processed as a JSON control
message even while an upload tracker is active (see the counterexample). -/
theorem binary_routing_c8 (now : ℚ) (tr : Server.UploadTracker) (s : String)
    (hroute : Server.classifyFrame s = .uploadData)
    (hlt : tr.receivedBytes + s.length < tr.totalSize) :
    (Server.incoming now (some tr) s).1 = .uploadData
    ∧ Server.trackerBytes (Server.incoming now (some tr) s).2.1
      = tr.receivedBytes + s.length := by
  have h2 := (Server.handleUploadChunk_not_complete now tr s.length hlt).1
  constructor
  · simp [Server.incoming, hroute]
  · simp [Server.incoming, hroute, h2, Server.trackerBytes]

/-- Witness for C8: a 4-byte non-JSON frame is routed to the upload handler
and counted. -/
theorem binary_routing_c8_witness :
    (Server.incoming 0 (some exUploadTracker) "DATA").1 = Server.IncomingRoute.uploadData
    ∧ Server.trackerBytes (Server.incoming 0 (some exUploadTracker) "DATA").2.1 = 4 := by
  have h := binary_routing_c8 0 exUploadTracker "DATA" (by decide) (by decide)
  refine ⟨h.1, ?_⟩
  rw [h.2]
  decide

/-- Counterexample for C8 as stated: while a tracker is active, a binary frame
whose bytes decode to brace-delimited text is interpreted as a JSON control
message — `handleUploadChunk` never runs and the tracker is left untouched
instead of being credited with the frame's length. -/
theorem binary_routing_c8_cex :
    Server.classifyFrame "\x7b\x7d" = Server.IncomingRoute.jsonControl
    ∧ Server.incoming 0 (some exUploadTracker) "\x7b\x7d"
      = (Server.IncomingRoute.jsonControl, (some exUploadTracker, [])) := by
  constructor
  · decide
  · simp [Server.incoming, Server.classifyFrame, Server.isJsonLike, Server.trimmedChars,
      Server.isWS]

/-- Claim C9: a second `disconnect` right after a first one changes nothing and
performs no action, in both drivers; and calling connect while already
connected resolves immediately on the unchanged state without constructing a
new socket, in both drivers.  All four operations are total functions and
raise nothing. -/
theorem idempotent_connect_disconnect_c9 (s : Sdk.SdkState) (sN : SdkNew.NewState)
    (hc : s.isConnected = true) (hw : s.webSocket = true) (hcN : sN.isConnected = true) :
    Sdk.disconnect (Sdk.disconnect s).1 = ((Sdk.disconnect s).1, [])
    ∧ SdkNew.disconnect (SdkNew.disconnect sN).1 = ((SdkNew.disconnect sN).1, [])
    ∧ Sdk.connectWebSocket s = (s, .resolvedImmediately)
    ∧ SdkNew.connect sN = (sN, .resolvedImmediately) := by
  refine ⟨?_, ?_, ?_, ?_⟩
  · by_cases h : s.webSocket <;> simp [Sdk.disconnect, h]
  · by_cases h : sN.ws <;> simp [SdkNew.disconnect, h]
  · simp [Sdk.connectWebSocket, hc, hw]
  · simp [SdkNew.connect, hcN]

/-- Example state of a connected old-SDK driver. -/
def connectedSdkState : Sdk.SdkState := { isConnected := true, webSocket := true }

/-- Example state of a connected new-SDK driver. -/
def connectedNewState : SdkNew.NewState := { isConnected := true }

/-- Witness for C9 on concrete connected drivers. -/
theorem idempotent_connect_disconnect_c9_witness :
    Sdk.disconnect (Sdk.disconnect connectedSdkState).1
      = ((Sdk.disconnect connectedSdkState).1, [])
    ∧ Sdk.connectWebSocket connectedSdkState = (connectedSdkState, .resolvedImmediately)
    ∧ SdkNew.connect connectedNewState = (connectedNewState, .resolvedImmediately) := by
  have h := idempotent_connect_disconnect_c9 connectedSdkState connectedNewState rfl rfl rfl
  exact ⟨h.1, h.2.2.1, h.2.2.2⟩

/-- Claim C10: in `SpeedTestWebSocketSdk`, an `upload_result` message matching the
current request id resolves the pending upload future exactly when its
`bitsPerSecond` field is truthy (non-zero); with `bitsPerSecond = 0` the
handler does nothing — the future stays unresolved and `testInProgress`
remains set. -/
theorem upload_result_truthiness_c10 (s : Sdk.SdkState) (now : ℚ) (m : InMsg) (q : ℚ)
    (htype : m.type = "upload_result")
    (hid : m.requestId = s.currentRequestId)
    (hch : s.hasCompletionHandler = true)
    (hbps : m.bitsPerSecond = some q) :
    (q ≠ 0 → Sdk.handleMessage s now m =
        ({ s with testInProgress := false }, [.completion (.uploadSpeed q)]))
    ∧ (q = 0 → Sdk.handleMessage s now m = (s, [])) := by
  constructor
  · intro hq
    simp [Sdk.handleMessage, hid, Sdk.dispatch, htype, hbps, jsTruthyOptNum, hq, hch,
      Sdk.callCompletion]
  · intro hq
    subst hq
    simp [Sdk.handleMessage, hid, Sdk.dispatch, htype, hbps, jsTruthyOptNum]

/-- Example old-SDK state with a pending upload future. -/
def pendingUploadState : Sdk.SdkState :=
  { hasCompletionHandler := true, testInProgress := true, currentRequestId := some "a" }

/-- Witness for C10: a zero `bitsPerSecond` leaves the state untouched while a
non-zero one resolves the future and clears the flag. -/
theorem upload_result_truthiness_c10_witness :
    Sdk.handleMessage pendingUploadState 0
        { type := "upload_result", requestId := some "a", bitsPerSecond := some 0 }
      = (pendingUploadState, [])
    ∧ Sdk.handleMessage pendingUploadState 0
        { type := "upload_result", requestId := some "a", bitsPerSecond := some 5 }
      = ({ pendingUploadState with testInProgress := false },
         [.completion (.uploadSpeed 5)]) := by
  refine ⟨?_, ?_⟩
  · exact (upload_result_truthiness_c10 pendingUploadState 0
      { type := "upload_result", requestId := some "a", bitsPerSecond := some 0 } 0
      rfl rfl rfl rfl).2 rfl
  · exact (upload_result_truthiness_c10 pendingUploadState 0
      { type := "upload_result", requestId := some "a", bitsPerSecond := some 5 } 5
      rfl rfl rfl rfl).1 (by norm_num)

/-- Claim C2 (amended): in `SpeedTestWebSocketSdk`, a JSON control message whose
truthy `requestId` differs from the driver's truthy tracked request id is
silently dropped: no handler runs, the state is unchanged and no effect is
produced.  (`SpeedTestWebSocketSdkNew` performs no such correlation — see the
counterexample.) -/
theorem stale_message_dropped_c2 (s : Sdk.SdkState) (now : ℚ) (m : InMsg)
    (hc : jsTruthyOptStr s.currentRequestId = true)
    (hm : jsTruthyOptStr m.requestId = true)
    (hne : s.currentRequestId ≠ m.requestId) :
    Sdk.handleMessage s now m = (s, []) := by
  simp [Sdk.handleMessage, hc, hm, hne]

/-- Witness for C2: a pong for a different request id is dropped by the old
SDK while its own request is outstanding. -/
theorem stale_message_dropped_c2_witness :
    Sdk.handleMessage
        { currentRequestId := some "aaa", testInProgress := true,
          hasCompletionHandler := true } 7
        { type := "pong", requestId := some "bbb" }
      = ({ currentRequestId := some "aaa", testInProgress := true,
           hasCompletionHandler := true }, []) :=
  stale_message_dropped_c2 _ 7 _ (by decide) (by decide) (by decide)

/-- Example new-SDK state with a pending ping future for request "aaa". -/
def pendingPingNewState : SdkNew.NewState :=
  { currentRequestId := some "aaa", testInProgress := true, hasCompletionHandler := true }

/-- Counterexample for C2 as stated: `SpeedTestWebSocketSdkNew.handleMessage`
dispatches a pong carrying a different request id straight to its handler,
which resolves the pending future and clears `testInProgress` — the stale
message is not dropped. -/
theorem stale_message_c2_cex :
    SdkNew.handleMessage pendingPingNewState 7 { type := "pong", requestId := some "bbb" }
      = ({ pendingPingNewState with testInProgress := false },
         [.completion (.pingTime 7)])
    ∧ (InMsg.requestId { type := "pong", requestId := some "bbb" })
        ≠ pendingPingNewState.currentRequestId
    ∧ pendingPingNewState.testInProgress = true := by
  refine ⟨?_, by decide, rfl⟩
  show SdkNew.handleMessage pendingPingNewState 7 { type := "pong", requestId := some "bbb" }
    = ({ pendingPingNewState with testInProgress := false }, [.completion (.pingTime 7)])
  simp [SdkNew.handleMessage, SdkNew.callCompletion, pendingPingNewState]

/-- Claim C5: on both drivers, every test operation called while a test is
outstanding fails immediately with the test-in-progress error, leaving the
state unchanged and sending nothing over the channel. -/
theorem test_in_progress_guard_c5 (s : Sdk.SdkState) (sN : SdkNew.NewState)
    (newId : String) (now : ℚ) (cOk sOk hasProg hasErr : Bool) (cs tc sz : Option ℕ)
    (h : s.testInProgress = true) (hN : sN.testInProgress = true) :
    Sdk.testPing s newId now cOk = ⟨s, [], some testInProgressMsg⟩
    ∧ Sdk.testDownloadSpeed s cs hasProg newId now cOk = ⟨s, [], some testInProgressMsg⟩
    ∧ Sdk.testUploadSpeed s tc hasProg newId now cOk = ⟨s, [], some testInProgressMsg⟩
    ∧ Sdk.runFullTest s cs tc hasProg newId now cOk = ⟨s, [], some testInProgressMsg⟩
    ∧ SdkNew.testPing sN newId now cOk sOk hasProg hasErr = ⟨sN, [], some testInProgressMsg⟩
    ∧ SdkNew.testDownloadSpeed sN sz newId now cOk sOk hasProg hasErr
      = ⟨sN, [], some testInProgressMsg⟩
    ∧ SdkNew.testUploadSpeed sN sz newId now cOk sOk hasProg hasErr
      = ⟨sN, [], some testInProgressMsg⟩
    ∧ SdkNew.runFullTest sN newId now cOk sOk hasErr = ⟨sN, [], some testInProgressMsg⟩ := by
  simp [Sdk.testPing, Sdk.testDownloadSpeed, Sdk.testUploadSpeed, Sdk.runFullTest,
    SdkNew.testPing, SdkNew.testDownloadSpeed, SdkNew.testUploadSpeed, SdkNew.runFullTest,
    h, hN]

/-- Example old-SDK state with a test outstanding. -/
def busySdkState : Sdk.SdkState := { testInProgress := true }

/-- Example new-SDK state with a test outstanding. -/
def busyNewState : SdkNew.NewState := { testInProgress := true }

/-- Witness for C5 on concrete busy drivers. -/
theorem test_in_progress_guard_c5_witness :
    Sdk.testPing busySdkState "x" 0 true = ⟨busySdkState, [], some testInProgressMsg⟩
    ∧ SdkNew.testPing busyNewState "x" 0 true true false false
      = ⟨busyNewState, [], some testInProgressMsg⟩ := by
  have h := test_in_progress_guard_c5 busySdkState busyNewState "x" 0 true true false false
    none none none rfl rfl
  exact ⟨h.1, h.2.2.2.2.1⟩

namespace Sdk

theorem cstep_snd_not_success (e : CEvent) (st : Bool × COutcome)
    (he : e ≠ .sockOpen) (hs : st.2 ≠ .success) : (cstep st e).2 ≠ .success := by
  cases e with
  | sockOpen => exact absurd rfl he
  | sockError => simp only [cstep]; split <;> simp [hs]
  | timeout5s => simp only [cstep]; split <;> simp [hs]
  | connectedMsg => simpa [cstep] using hs

theorem cstep_snd_not_pending (e : CEvent) (st : Bool × COutcome)
    (hs : st.2 ≠ .pending) : (cstep st e).2 ≠ .pending := by
  cases e with
  | sockOpen => simp only [cstep]; split <;> simp [hs]
  | sockError => simp only [cstep]; split <;> simp [hs]
  | timeout5s => simp only [cstep]; split <;> simp [hs]
  | connectedMsg => simpa [cstep] using hs

theorem foldl_cstep_not_success (tr : List CEvent) :
    ∀ st : Bool × COutcome, CEvent.sockOpen ∉ tr → st.2 ≠ .success →
      (tr.foldl cstep st).2 ≠ .success := by
  induction tr with
  | nil => intro st _ hs; exact hs
  | cons e rest ih =>
    intro st hmem hs
    simp only [List.foldl_cons]
    refine ih _ (fun hh => hmem (List.mem_cons_of_mem _ hh)) ?_
    exact cstep_snd_not_success e st (fun he => hmem (he ▸ List.mem_cons_self e rest)) hs

theorem foldl_cstep_not_pending (tr : List CEvent) :
    ∀ st : Bool × COutcome, st.2 ≠ .pending → (tr.foldl cstep st).2 ≠ .pending := by
  induction tr with
  | nil => intro st hs; exact hs
  | cons e rest ih =>
    intro st hs
    simp only [List.foldl_cons]
    exact ih _ (cstep_snd_not_pending e st hs)

theorem foldl_cstep_timeout (tr : List CEvent) :
    ∀ st : Bool × COutcome, CEvent.sockOpen ∉ tr → CEvent.connectedMsg ∉ tr →
      st.1 = false → CEvent.timeout5s ∈ tr → (tr.foldl cstep st).2 ≠ .pending := by
  induction tr with
  | nil => intro st _ _ _ hmem; exact absurd hmem (List.not_mem_nil _)
  | cons e rest ih =>
    intro st hopen hconn hfalse hmem
    simp only [List.foldl_cons]
    by_cases he : e = .timeout5s
    · subst he
      apply foldl_cstep_not_pending
      simp only [cstep, hfalse]
      split <;> simp_all
    · have hrest : CEvent.timeout5s ∈ rest := by
        rcases List.mem_cons.mp hmem with h | h
        · exact absurd h.symm he
        · exact h
      have heo : e ≠ .sockOpen := fun h => hopen (h ▸ List.mem_cons_self e rest)
      have hec : e ≠ .connectedMsg := fun h => hconn (h ▸ List.mem_cons_self e rest)
      have hfst : (cstep st e).1 = false := by
        cases e with
        | sockOpen => exact absurd rfl heo
        | sockError => simpa [cstep] using hfalse
        | timeout5s => exact absurd rfl he
        | connectedMsg => exact absurd rfl hec
      exact ih _ (fun hh => hopen (List.mem_cons_of_mem _ hh))
        (fun hh => hconn (List.mem_cons_of_mem _ hh)) hfst hrest

end Sdk

/-- Claim C7 (amended): in `SpeedTestWebSocketSdk`, a fresh connect attempt whose
socket never opens (and which never sees the server's `connected` message)
settles once the `onerror` callback or the unconditional 5-second timer
fires: the promise never resolves successfully and never stays pending.
(Connect success is gated on the socket `onopen` event alone — the server's
`connected` acknowledgment is not awaited, see the counterexample — and
`SpeedTestWebSocketSdkNew.connect` has no timer at all.) -/
theorem connect_no_open_fails_c7 (tr : List Sdk.CEvent)
    (h1 : Sdk.CEvent.sockOpen ∉ tr) (h2 : Sdk.CEvent.connectedMsg ∉ tr)
    (h3 : Sdk.CEvent.timeout5s ∈ tr) :
    Sdk.connectOutcome tr ≠ .success ∧ Sdk.connectOutcome tr ≠ .pending := by
  constructor
  · exact Sdk.foldl_cstep_not_success tr (false, .pending) h1 (by simp)
  · exact Sdk.foldl_cstep_timeout tr (false, .pending) h1 h2 rfl h3

/-- Witness for C7: an attempt seeing only the 5-second timer fails rather
than hanging or succeeding. -/
theorem connect_no_open_fails_c7_witness :
    Sdk.connectOutcome [.timeout5s] ≠ .success
    ∧ Sdk.connectOutcome [.timeout5s] ≠ .pending :=
  connect_no_open_fails_c7 [.timeout5s] (by decide) (by decide) (by decide)

/-- Counterexample for C7 as stated: a connect attempt whose socket opens but
which never receives the server's `connected` acknowledgment resolves
successfully when the timer fires — the missing acknowledgment does not make
the connect fail. -/
theorem connect_without_ack_c7_cex :
    Sdk.connectOutcome [.sockOpen, .timeout5s] = .success
    ∧ Sdk.CEvent.connectedMsg ∉ ([.sockOpen, .timeout5s] : List Sdk.CEvent) := by
  constructor
  · decide
  · decide

end SpeedTest
